import Mathlib

/-!
Shallow embedding of the EIP-7702 diagnostic reproduction harness
(Destiner/rhinestone-stox-dynamic).

The repository contains three near-duplicate `runTest` procedures:
  * `runTest001` embeds the bug-repro variant (`App`, src/unnamed/part_001),
  * `runTest003` embeds the account-abstraction variant
    (`RhinestoneTest`, src/unnamed/part_003),
  * `runTestE` embeds the direct-signing variant (src/src/Eip7702Test.tsx),
and `mainStartup` embeds the startup validation of src/src/main.tsx and
src/unnamed/part_002.

Each variant is a sequential, single-threaded procedure calling two external
collaborators (the Dynamic wallet connector and the Rhinestone SDK client).
The collaborators' behaviours are modelled as an environment record: every
awaited external call is a field of type `Except String _` (the `String` is
the thrown error's `.message`), and every optional capability is an `Option`.
JavaScript falsiness of strings (undefined or `""`) is modelled explicitly
where the source tests it. Template interpolation of `undefined` renders the
string "undefined", as in JavaScript. The wall-clock timestamp prefix of a log
entry (`new Date().toLocaleTimeString()`) is presentation-only ambient output
read by no logic in the repository, so a log entry is modelled by its level
and message. Effects performed
by the collaborators themselves (e.g. SDK-driven callbacks) are folded into
the oracle results, since they live outside this repository's code.

Besides the component state that the source keeps in React hooks
(`logs`, `running`, and for the direct-signing variant `lastAuthorization`),
each run state carries a ghost trace `calls` of the external calls issued, so
that claims of the form "step X is (never) invoked" can be stated.
-/

inductive Level where
  | info
  | error
  | success
deriving DecidableEq, Repr

structure LogEntry where
  level : Level
  msg : String
deriving DecidableEq, Repr

/-- `logs.any` check that some entry has the given level and message. -/
def hasLog (logs : List LogEntry) (lvl : Level) (msg : String) : Bool :=
  logs.any (fun en => en.level == lvl && en.msg == msg)

/-- JavaScript `a || d` on an optional string (both `undefined` and `""` are falsy). -/
def jsOrStr (o : Option String) (d : String) : String :=
  match o with
  | some v => if v = "" then d else v
  | none => d

/-- JavaScript `a || b` where both operands are optional strings. -/
def jsOrOpt (a b : Option String) : Option String :=
  match a with
  | some v => if v = "" then b else some v
  | none => b

/-- JavaScript template interpolation of a possibly-undefined string. -/
def jsUndef (o : Option String) : String :=
  match o with
  | some v => v
  | none => "undefined"

/-- JavaScript template interpolation of a possibly-undefined number. -/
def jsUndefNat (o : Option Nat) : String :=
  match o with
  | some n => toString n
  | none => "undefined"

/-- JavaScript template interpolation of a boolean. -/
def jsBool (b : Bool) : String :=
  if b then "true" else "false"

/-- ASCII lowercase of one character (the inputs scanned by the source are
hex addresses and connector names, all ASCII). -/
def charLower (c : Char) : Char :=
  if ('A' ≤ c) && (c ≤ 'Z') then Char.ofNat (c.toNat + 32) else c

/-- `String.prototype.toLowerCase` on ASCII data, kernel-computable. -/
def strLower (s : String) : String :=
  String.mk (s.data.map charLower)

/-- `String.prototype.slice(0, n)`, kernel-computable. -/
def strTake (s : String) (n : Nat) : String :=
  String.mk (s.data.take n)

/-- `String.prototype.includes(pat)`: substring occurrence test. -/
def strContains (s pat : String) : Bool :=
  (List.range (s.data.length + 1)).any (fun i => pat.data.isPrefixOf (s.data.drop i))

/-- Hex digit class of the regex `[a-fA-F0-9]`. -/
def isHexDigitJs (c : Char) : Bool :=
  (('0' ≤ c) && (c ≤ '9')) || (('a' ≤ c) && (c ≤ 'f')) || (('A' ≤ c) && (c ≤ 'F'))

/-- Take exactly `n` hex digits from the front, returning them and the rest. -/
def takeHexDigits : Nat → List Char → Option (List Char × List Char)
  | 0, rest => some ([], rest)
  | _ + 1, [] => none
  | n + 1, c :: cs =>
      if isHexDigitJs c then
        (takeHexDigits n cs).map (fun p => (c :: p.1, p.2))
      else none

/-- Match the regex `0x[a-fA-F0-9]{40}` at the head of the character list,
returning the matched text and the remainder after the match. -/
def matchAddrAt : List Char → Option (String × List Char)
  | '0' :: 'x' :: cs =>
      (takeHexDigits 40 cs).map (fun p => (String.mk ('0' :: 'x' :: p.1), p.2))
  | _ => none

/-- Global scan (`String.prototype.match` with the `g` flag): non-overlapping
matches found left to right; on a failed match the scan advances one
character, on a successful match it resumes after the match. -/
def scanAddrsAux : Nat → List Char → List String
  | 0, _ => []
  | _ + 1, [] => []
  | fuel + 1, c :: cs =>
      match matchAddrAt (c :: cs) with
      | some (a, rest) => a :: scanAddrsAux fuel rest
      | none => scanAddrsAux fuel cs

/-- All matches of `/0x[a-fA-F0-9]{40}/g` in a string. -/
def addrMatches (s : String) : List String :=
  scanAddrsAux s.data.length s.data

/-- The candidate delegate of the manual bypass: the first address-shaped
substring of the serialized transaction messages whose lowercase form differs
from the lowercase sender address (`addrMatch?.find(...)` in the source). -/
def delegateAddrOf (msgStr address : String) : Option String :=
  (addrMatches msgStr).find? (fun a => strLower a != strLower address)

/-- `JSON.stringify` of a number array, e.g. `[8453]`. -/
def natListJson (l : List Nat) : String :=
  "[" ++ String.intercalate "," (l.map toString) ++ "]"

/-- `base.id` from viem/chains. -/
def baseChainId : Nat := 8453

/-- Ghost trace events: one constructor per external call site appearing in
the three variants. -/
inductive CallEv where
  | getWalletClient
  | createAccount
  | isDeployed
  | signEip7702InitData
  | prepareTransaction (initSig : Option String)
  | rhSignTransaction
  | rhSignAuthorizations
  | getTransactionMessages
  | walletSignAuthorization (contractAddress : String)
  | setActiveAccount (address : String)
  | getSigner
  | getNetwork
  | switchNetwork (chainId : Nat)
  | signerSignAuthorization (contractAddress : String) (chainId : Nat)
  | submitTransaction
deriving DecidableEq, Repr

/-! ## Bug-repro variant (`App`, src/unnamed/part_001) -/

structure Connector001 where
  name : Option String
  evmNetworks : Option (List Nat)
  hasGetWalletClient : Bool
  hasGetSigner : Bool
  hasExportPrivateKey : Bool
deriving DecidableEq, Repr

structure Wallet001 where
  address : String
  connector : Option Connector001
deriving DecidableEq, Repr

/-- The Rhinestone smart account as consumed: only `getAddress()` is read. -/
structure RhAccount where
  address : String
deriving DecidableEq, Repr

/-- Result of `walletClient.signAuthorization`: only `r` is read (`auth.r?.slice(0, 20)`). -/
structure BypassAuth where
  r : Option String
deriving DecidableEq, Repr

/-- Collaborator behaviour for one run of the bug-repro variant. -/
structure Env001 where
  wallet : Option Wallet001
  getWalletClient : Except String (Option Unit)
  walletClientAccountType : Option String
  apiKey : Option String
  createAccount : Except String RhAccount
  isDeployed : Except String Bool
  signEip7702InitData : Except String String
  prepareTransaction : Except String Unit
  signAuthorizations : Except String Nat
  walletClientHasSignAuthorization : Bool
  getTransactionMessages : Except String String
  walletSignAuthorization : Except String BypassAuth

/-- React state of the `App` component (`logs`, `running`) plus the ghost call trace. -/
structure State001 where
  logs : List LogEntry
  running : Bool
  calls : List CallEv

def log001 (st : State001) (lvl : Level) (msg : String) : State001 :=
  { st with logs := st.logs ++ [⟨lvl, msg⟩] }

def call001 (st : State001) (ev : CallEv) : State001 :=
  { st with calls := st.calls ++ [ev] }

/-- Append a sequence of log entries in order. -/
def logMany001 (st : State001) : List (Level × String) → State001
  | [] => st
  | p :: rest => logMany001 (log001 st p.1 p.2) rest

/-- The messages of step 12 of the bug-repro variant, as a pure function of the
wallet handle: an embedded/external classification of the connector name
followed by the optional-capability enumeration.  Step 12 performs no external
calls and never throws. -/
def step12Msgs (w : Wallet001) : List (Level × String) :=
  let cname := w.connector.bind Connector001.name
  let externalMsgs : List (Level × String) :=
    [(Level.info, "External wallet (e.g., MetaMask) detected"),
     (Level.info, "External wallets would need to implement EIP-7702 signing natively")]
  let embeddedMsgs : List (Level × String) :=
    [(Level.info, "For embedded wallets, Dynamic might support:"),
     (Level.info, "  - Exporting private key (user-initiated)"),
     (Level.info, "  - Server-side authorization signing via API"),
     (Level.info, "  - wallet_signAuthorization RPC method")]
  [(Level.info, "Step 12: Checking Dynamic wallet capabilities..."),
   (Level.info, "Wallet connector: " ++ jsUndef cname)]
  ++ (match cname with
      | none => (Level.info, "Is embedded wallet: undefined") :: externalMsgs
      | some n =>
          let isEmbedded :=
            strContains (strLower n) "embedded" || strContains (strLower n) "dynamic"
          (Level.info, "Is embedded wallet: " ++ jsBool isEmbedded)
            :: (if isEmbedded then embeddedMsgs else externalMsgs))
  ++ (match w.connector with
      | none => []
      | some c =>
          (if c.hasGetWalletClient then
            [(Level.info, "Connector has getWalletClient method")] else [])
          ++ (if c.hasGetSigner then
            [(Level.info, "Connector has getSigner method - might return local signer")] else [])
          ++ (if c.hasExportPrivateKey then
            [(Level.info, "Connector has exportPrivateKey method!")] else []))

/-- Step 12 of the bug-repro variant: informational capability enumeration. -/
def step12_001 (w : Wallet001) (st : State001) : State001 × Option String :=
  (logMany001 st (step12Msgs w), none)

/-- Step 11 of the bug-repro variant: the manual `walletClient.signAuthorization`
bypass, entered only when `signAuthFailed` is true. -/
def bypass001 (e : Env001) (w : Wallet001) (address : String) (st : State001) :
    State001 × Option String :=
  if e.walletClientHasSignAuthorization then
    let st := log001 st .info "walletClient.signAuthorization exists, trying it..."
    let st := call001 st .getTransactionMessages
    match e.getTransactionMessages with
    | Except.error m => step12_001 w (log001 st .error ("Workaround setup failed: " ++ m))
    | Except.ok msgStr =>
        let st := log001 st .info ("Transaction messages: " ++ strTake msgStr 300 ++ "...")
        let delegateAddr := delegateAddrOf msgStr address
        match delegateAddr with
        | some d =>
            let st := log001 st .info ("Found potential delegate: " ++ d)
            let st := call001 st (CallEv.walletSignAuthorization d)
            match e.walletSignAuthorization with
            | Except.ok auth =>
                let st := log001 st .success "Manual signAuthorization succeeded!"
                let rTxt :=
                  match auth.r with
                  | some r => strTake r 20
                  | none => "undefined"
                step12_001 w (log001 st .info ("r: " ++ rTxt ++ "..."))
            | Except.error m =>
                let st :=
                  log001 st .error ("walletClient.signAuthorization call failed: " ++ m)
                let st :=
                  if strContains m "not supported" || strContains m "Method not found" then
                    log001 st .error
                      ">>> Wallet does not support wallet_signAuthorization RPC method"
                  else st
                step12_001 w st
        | none =>
            let st := log001 st .error "Could not extract delegate address from SDK"
            let st :=
              log001 st .info
                "This means Rhinestone SDK does not expose the delegate contract address"
            step12_001 w st
  else
    step12_001 w (log001 st .error "walletClient.signAuthorization not available on this walletClient")

/-- Step 10 of the bug-repro variant (the designated bug test) followed by
steps 11 and 12; entered once a prepared transaction exists. -/
def step10_001 (e : Env001) (w : Wallet001) (address : String) (st : State001) :
    State001 × Option String :=
  let st := log001 st .info "Step 10: Calling signAuthorizations (THE BUG TEST)..."
  let st := call001 st .rhSignAuthorizations
  match e.signAuthorizations with
  | Except.ok n =>
      let st :=
        log001 st .success ("signAuthorizations succeeded! Got " ++ toString n ++ " auth(s)")
      let st := log001 st .info "Step 11: Skipping workaround test (signAuthorizations worked)"
      step12_001 w st
  | Except.error m =>
      let st := log001 st .error ("signAuthorizations FAILED: " ++ m)
      let st :=
        if strContains m "Account type" || strContains m "json-rpc" ||
            strContains m "not supported" then
          log001 st .error ">>> BUG CONFIRMED: JSON-RPC account cannot sign EIP-7702 authorizations"
        else st
      let st := log001 st .info "Step 11: Testing walletClient.signAuthorization workaround..."
      bypass001 e w address st

/-- The body of the bug-repro `runTest` inside its outer `try`.  Returns the
state reached together with `some m` when an error with message `m` escapes
to the outer catch, `none` on a normal (or early) return. -/
def body001 (e : Env001) (st : State001) : State001 × Option String :=
  let st := log001 st .info "Step 1: Checking Dynamic wallet connection..."
  match e.wallet with
  | none => (log001 st .error "No wallet connected. Please connect first.", none)
  | some w =>
  let address := w.address
  let st := log001 st .success ("Wallet connected: " ++ address)
  let st :=
    log001 st .info ("Wallet type: " ++ jsOrStr (w.connector.bind Connector001.name) "unknown")
  let st := log001 st .info "Step 2: Getting provider from Dynamic wallet..."
  let st := call001 st .getWalletClient
  match e.getWalletClient with
  | Except.error m => (st, some m)
  | Except.ok none => (log001 st .error "Failed to get wallet client from Dynamic", none)
  | Except.ok (some _) =>
  let st := log001 st .success "Got wallet client from Dynamic"
  let st := log001 st .info "Step 3: Creating viem WalletClient..."
  let st := log001 st .success "WalletClient created"
  let st := log001 st .info "Step 4: Converting to Rhinestone account via walletClientToAccount..."
  let accountType := (e.walletClientAccountType).getD "json-rpc"
  let st := log001 st .success ("Account created - type: \"" ++ accountType ++ "\"")
  let st := log001 st .info "Step 5: Initializing Rhinestone SDK..."
  match e.apiKey with
  | none => (log001 st .error "VITE_RHINESTONE_API_KEY not set", none)
  | some key =>
  if key = "" then (log001 st .error "VITE_RHINESTONE_API_KEY not set", none) else
  let st := log001 st .success "Rhinestone SDK initialized"
  let st := log001 st .info "Step 6: Creating Rhinestone account with accountType: \"7702\"..."
  let st := call001 st .createAccount
  match e.createAccount with
  | Except.error m => (st, some m)
  | Except.ok acct =>
  let rhinestoneAddress := acct.address
  let st := log001 st .success ("Rhinestone account: " ++ rhinestoneAddress)
  let st :=
    log001 st .info ("EOA match: " ++ jsBool (strLower rhinestoneAddress == strLower address))
  let st := log001 st .info "Step 7: Checking deployment status on Base..."
  let st := call001 st .isDeployed
  match e.isDeployed with
  | Except.error m => (st, some m)
  | Except.ok dep =>
  let st := log001 st .info ("Account deployed: " ++ jsBool dep)
  let st := log001 st .info "Step 8: Signing EIP-7702 init data..."
  let st := call001 st .signEip7702InitData
  let p :=
    match e.signEip7702InitData with
    | Except.ok v =>
        if v ≠ "" ∧ v ≠ "0x" then
          (log001 st .success ("Init signature: " ++ strTake v 20 ++ "..."), some v)
        else
          (log001 st .error "signEip7702InitData returned empty/null", (none : Option String))
    | Except.error m =>
        (log001 st .error ("signEip7702InitData failed: " ++ m), (none : Option String))
  let st := p.1
  let eip7702InitSignature := p.2
  let st := log001 st .info "Step 9: Preparing transaction with feeAsset: \"USDC\"..."
  let st :=
    log001 st .info ("Including eip7702InitSignature: " ++ jsBool eip7702InitSignature.isSome)
  let st := call001 st (CallEv.prepareTransaction eip7702InitSignature)
  match e.prepareTransaction with
  | Except.error m => (log001 st .error ("prepareTransaction failed: " ++ m), none)
  | Except.ok _ =>
  let st := log001 st .success "Transaction prepared"
  step10_001 e w address st

/-- State at the top of the bug-repro `runTest`: logs cleared, running flag
raised, fresh ghost trace.  The source resets every piece of component state
here, so the start state does not depend on the previous one. -/
def start001 : State001 :=
  { logs := [], running := true, calls := [] }

/-- The bug-repro `runTest`: body under the outer try, the catch converting an
escaped error into an `Unexpected error` entry, and the `finally` clearing the
running flag. -/
def runTest001 (e : Env001) (_s : State001) : State001 :=
  let r := body001 e start001
  let st :=
    match r.2 with
    | some m => log001 r.1 .error ("Unexpected error: " ++ m)
    | none => r.1
  { st with running := false }

/-! ## Account-abstraction variant (`RhinestoneTest`, src/unnamed/part_003) -/

structure Conn003 where
  hasSetActiveAccount : Bool
  hasGetSigner : Bool
deriving DecidableEq, Repr

structure Wallet003 where
  address : String
  connector : Option Conn003
deriving DecidableEq, Repr

/-- The Dynamic signer as consumed by this variant: only the presence of its
`signAuthorization` member is tested before use. -/
structure Signer003 where
  hasSignAuthorization : Bool
deriving DecidableEq, Repr

/-- Collaborator behaviour for one run of the `RhinestoneTest` variant. -/
structure Env003 where
  wallet : Option Wallet003
  getSigner : Except String (Option Signer003)
  apiKey : Option String
  createAccount : Except String RhAccount
  signEip7702InitData : Except String String
  prepareTransaction : Except String Unit
  signTransaction : Except String Unit
  signAuthorizations : Except String Nat
  submitTransaction : Except String String

structure State003 where
  logs : List LogEntry
  running : Bool
  calls : List CallEv

def log003 (st : State003) (lvl : Level) (msg : String) : State003 :=
  { st with logs := st.logs ++ [⟨lvl, msg⟩] }

def call003 (st : State003) (ev : CallEv) : State003 :=
  { st with calls := st.calls ++ [ev] }

/-- Body of the `RhinestoneTest` `runTest` inside its outer `try`.  Note that
unlike the bug-repro variant, only `signEip7702InitData` has an inner catch
here: a failing `prepareTransaction`, `signTransaction`, `signAuthorizations`
or `submitTransaction` escapes to the outer catch. -/
def body003 (e : Env003) (st : State003) : State003 × Option String :=
  match e.wallet with
  | none => (log003 st .error "No wallet connected", none)
  | some w =>
  let address := w.address
  let st := log003 st .success ("Wallet: " ++ address)
  let waasOk :=
    match w.connector with
    | some c => c.hasSetActiveAccount && c.hasGetSigner
    | none => false
  if !waasOk then (log003 st .error "Not a WaaS wallet", none) else
  let st := call003 st (CallEv.setActiveAccount address)
  let st := call003 st .getSigner
  match e.getSigner with
  | Except.error m => (st, some m)
  | Except.ok sgOpt =>
  let signerOk :=
    match sgOpt with
    | some sg => sg.hasSignAuthorization
    | none => false
  if !signerOk then (log003 st .error "Signer missing signAuthorization", none) else
  let st := log003 st .success "Dynamic signer ready"
  let st := log003 st .success "Custom account created"
  match e.apiKey with
  | none => (log003 st .error "RHINESTONE_API_KEY not set", none)
  | some key =>
  if key = "" then (log003 st .error "RHINESTONE_API_KEY not set", none) else
  let st := call003 st .createAccount
  match e.createAccount with
  | Except.error m => (st, some m)
  | Except.ok acct =>
  let st := log003 st .success ("Rhinestone account: " ++ acct.address)
  let st := log003 st .info "Signing EIP-7702 init data..."
  let st := call003 st .signEip7702InitData
  let p :=
    match e.signEip7702InitData with
    | Except.ok v =>
        (log003 st .success ("Init signature: " ++ strTake v 20 ++ "..."), some v)
    | Except.error m =>
        (log003 st .error ("signEip7702InitData failed: " ++ m), (none : Option String))
  let st := p.1
  let eip7702InitSignature := p.2
  let st := log003 st .info "Preparing transaction..."
  let st := call003 st (CallEv.prepareTransaction eip7702InitSignature)
  match e.prepareTransaction with
  | Except.error m => (st, some m)
  | Except.ok _ =>
  let st := log003 st .success "Transaction prepared"
  let st := log003 st .info "Signing transaction..."
  let st := call003 st .rhSignTransaction
  match e.signTransaction with
  | Except.error m => (st, some m)
  | Except.ok _ =>
  let st := log003 st .success "Transaction signed"
  let st := log003 st .info "Signing authorizations..."
  let st := call003 st .rhSignAuthorizations
  match e.signAuthorizations with
  | Except.error m => (st, some m)
  | Except.ok n =>
  let st := log003 st .success ("Authorizations signed: " ++ toString n)
  let st := log003 st .info "Submitting transaction..."
  let st := call003 st .submitTransaction
  match e.submitTransaction with
  | Except.error m => (st, some m)
  | Except.ok res =>
  let st := log003 st .success "=== TRANSACTION SUBMITTED ==="
  (log003 st .info ("Result: " ++ res), none)

def start003 : State003 :=
  { logs := [], running := true, calls := [] }

/-- The `RhinestoneTest` `runTest` with its outer catch (`Error: <msg>`) and
`finally` clearing the running flag. -/
def runTest003 (e : Env003) (_s : State003) : State003 :=
  let r := body003 e start003
  let st :=
    match r.2 with
    | some m => log003 r.1 .error ("Error: " ++ m)
    | none => r.1
  { st with running := false }

/-! ## Direct-signing variant (src/src/Eip7702Test.tsx) -/

/-- The authorization tuple as displayed: each field is echoed through a
template, so absent fields render as "undefined". -/
structure AuthE where
  contractAddr : Option String
  addr : Option String
  chainId : Option Nat
  nonce : Option Nat
  r : Option String
  s : Option String
  yParity : Option Nat
deriving DecidableEq, Repr

structure SignerE where
  accountAddress : Option String
  hasSignAuthorization : Bool
  signAuthorization : Except String AuthE

/-- The Dynamic WaaS connector capabilities consumed by the direct-signing
variant; every capability is optional and probed before use. -/
structure ConnectorE where
  name : Option String
  isSignAuthorizationSupported : Option Bool
  evmNetworks : Option (List Nat)
  getNetwork : Option (Except String (Option Nat))
  switchNetwork : Option (Except String Unit)
  hasSetActiveAccount : Bool
  getActiveAccount : Option (Option String)
  getSigner : Option (Except String (Option SignerE))

structure WalletE where
  address : String
  connector : Option ConnectorE

/-- Collaborator behaviour plus the delegate-address input field. -/
structure EnvE where
  wallet : Option WalletE
  contractAddress : String

/-- React state of the `Eip7702Test` component (`logs`, `running`,
`lastAuthorization`) plus the ghost call trace. -/
structure StateE where
  logs : List LogEntry
  running : Bool
  lastAuth : Option AuthE
  calls : List CallEv

def logE (st : StateE) (lvl : Level) (msg : String) : StateE :=
  { st with logs := st.logs ++ [⟨lvl, msg⟩] }

def callE (st : StateE) (ev : CallEv) : StateE :=
  { st with calls := st.calls ++ [ev] }

/-- Step 2 of the direct-signing variant: the non-blocking
`isSignAuthorizationSupported` probe, which only logs its result. -/
def probeLogE (c : ConnectorE) (st : StateE) : StateE :=
  match c.isSignAuthorizationSupported with
  | some true => logE st .success "EIP-7702 signAuthorization is supported!"
  | _ => logE st .info "isSignAuthorizationSupported not available or returned false"

/-- Steps 4 and 5 of the direct-signing variant: account activation, signer
acquisition and the `signAuthorization` call. -/
def stepsSignE (e : EnvE) (c : ConnectorE) (address : String) (st : StateE) :
    StateE × Option String :=
  let st := logE st .info "Step 4: Setting active account..."
  if c.hasSetActiveAccount then
    let st := callE st (CallEv.setActiveAccount address)
    let activeAccount : Option String :=
      match c.getActiveAccount with
      | some v => v
      | none => none
    match activeAccount with
    | some a =>
      if a = "" then (logE st .error "Failed to set active account", none) else
      let st := logE st .success ("Active account set: " ++ a)
      let st := logE st .info "Step 5: Getting signer and signing EIP-7702 authorization..."
      match c.getSigner with
      | none => (logE st .error "getSigner not available", none)
      | some res =>
      let st := callE st .getSigner
      match res with
      | Except.error m => (st, some m)
      | Except.ok none => (logE st .error "Failed to get signer", none)
      | Except.ok (some signer) =>
      let st := logE st .success ("Signer obtained: " ++ jsOrStr signer.accountAddress "unknown")
      if !signer.hasSignAuthorization then
        (logE st .error "signer.signAuthorization not available", none)
      else
      let st := logE st .info ("Signing authorization for contract: " ++ e.contractAddress)
      let st := logE st .info ("Chain ID: " ++ toString baseChainId)
      let st := callE st (CallEv.signerSignAuthorization e.contractAddress baseChainId)
      match signer.signAuthorization with
      | Except.error m => (st, some m)
      | Except.ok auth =>
      let st := logE st .success "=== EIP-7702 AUTHORIZATION SIGNED SUCCESSFULLY! ==="
      let st := logE st .success ("Contract: " ++ jsUndef (jsOrOpt auth.contractAddr auth.addr))
      let st := logE st .success ("Chain ID: " ++ jsUndefNat auth.chainId)
      let st := logE st .success ("Nonce: " ++ jsUndefNat auth.nonce)
      let st := logE st .success ("r: " ++ jsUndef auth.r)
      let st := logE st .success ("s: " ++ jsUndef auth.s)
      let st := logE st .success ("yParity: " ++ jsUndefNat auth.yParity)
      let st := { st with lastAuth := some auth }
      let st := logE st .info ""
      let st := logE st .info "This authorization can be used in a transaction:"
      let st := logE st .info "walletClient.sendTransaction(\x7b"
      let st := logE st .info "  authorizationList: [authorization],"
      let st := logE st .info "  to: eoaAddress,"
      let st := logE st .info "  data: encodeFunctionData(...),"
      let st := logE st .info "\x7d);"
      (st, none)
    | none => (logE st .error "Failed to set active account", none)
  else
    (logE st .error "setActiveAccount not available on connector", none)

/-- Body of the direct-signing `runTest` inside its outer `try`. -/
def bodyE (e : EnvE) (st : StateE) : StateE × Option String :=
  let st := logE st .info "Step 1: Checking Dynamic wallet connection..."
  match e.wallet with
  | none => (logE st .error "No wallet connected. Please connect first.", none)
  | some w =>
  let address := w.address
  let st := logE st .success ("Wallet connected: " ++ address)
  let st := logE st .info ("Connector: " ++ jsUndef (w.connector.bind ConnectorE.name))
  match w.connector with
  | none => (logE st .error "No connector found", none)
  | some c =>
  let st := logE st .info "Step 2: Checking EIP-7702 support..."
  let st := probeLogE c st
  let st := logE st .info "Step 3: Checking network..."
  let availableChains := c.evmNetworks.getD []
  let st := logE st .info ("Available chains: " ++ natListJson availableChains)
  if availableChains.contains baseChainId then
    let st := if c.getNetwork.isSome then callE st .getNetwork else st
    match c.getNetwork with
    | some (Except.error m) => (st, some m)
    | gn =>
    let currentNetwork : Option Nat :=
      match gn with
      | some (Except.ok v) => v
      | _ => none
    if currentNetwork ≠ some baseChainId then
      let st := logE st .info ("Switching to Base (" ++ toString baseChainId ++ ")...")
      let st := if c.switchNetwork.isSome then callE st (CallEv.switchNetwork baseChainId) else st
      match c.switchNetwork with
      | some (Except.error m) => (st, some m)
      | _ =>
      let st := logE st .success "Switched to Base"
      stepsSignE e c address st
    else
      let st := logE st .success "Already on Base"
      stepsSignE e c address st
  else
    (logE st .error "Base not available. Add it in Dynamic dashboard.", none)

/-- State at the top of the direct-signing `runTest`: logs cleared, stored
authorization tuple reset to null, running flag raised, fresh ghost trace. -/
def startE : StateE :=
  { logs := [], running := true, lastAuth := none, calls := [] }

/-- The direct-signing `runTest` with its outer catch (`Error: <msg>`) and
`finally` clearing the running flag. -/
def runTestE (e : EnvE) (_s : StateE) : StateE :=
  let r := bodyE e startE
  let st :=
    match r.2 with
    | some m => logE r.1 .error ("Error: " ++ m)
    | none => r.1
  { st with running := false }

/-! ## Startup validation (src/src/main.tsx and src/unnamed/part_002) -/

/-- Both entry points read `VITE_DYNAMIC_ENVIRONMENT_ID` and throw before
rendering anything when it is falsy; no other setting is consulted at
startup. -/
def mainStartup (dynamicEnvironmentId : Option String) : Except String Unit :=
  match dynamicEnvironmentId with
  | none => Except.error "VITE_DYNAMIC_ENVIRONMENT_ID is required"
  | some v =>
      if v = "" then Except.error "VITE_DYNAMIC_ENVIRONMENT_ID is required"
      else Except.ok ()

/-! ## Lemmas about the logging and tracing machinery -/

@[simp] theorem hasLog_nil (lvl : Level) (msg : String) : hasLog [] lvl msg = false := rfl

@[simp] theorem hasLog_append (l t : List LogEntry) (lvl : Level) (msg : String) :
    hasLog (l ++ t) lvl msg = (hasLog l lvl msg || hasLog t lvl msg) := by
  simp [hasLog, List.any_append]

@[simp] theorem hasLog_cons (en : LogEntry) (l : List LogEntry) (lvl : Level) (msg : String) :
    hasLog (en :: l) lvl msg = ((en.level == lvl && en.msg == msg) || hasLog l lvl msg) := by
  simp [hasLog]

/-- Which of a batch of pending messages matches a level and text. -/
def hasLogPairs (L : List (Level × String)) (lvl : Level) (msg : String) : Bool :=
  L.any (fun p => p.1 == lvl && p.2 == msg)

@[simp] theorem hasLog_logMany001 (L : List (Level × String)) :
    ∀ (st : State001) (lvl : Level) (msg : String),
      hasLog (logMany001 st L).logs lvl msg =
        (hasLog st.logs lvl msg || hasLogPairs L lvl msg) := by
  induction L with
  | nil => intro st lvl msg; simp [logMany001, hasLogPairs]
  | cons p rest ih =>
      intro st lvl msg
      rw [logMany001, ih]
      simp [log001, hasLogPairs, Bool.or_assoc]

@[simp] theorem logMany001_calls (L : List (Level × String)) :
    ∀ st : State001, (logMany001 st L).calls = st.calls := by
  induction L with
  | nil => intro st; rfl
  | cons p rest ih => intro st; rw [logMany001, ih]; rfl

@[simp] theorem logMany001_running (L : List (Level × String)) :
    ∀ st : State001, (logMany001 st L).running = st.running := by
  induction L with
  | nil => intro st; rfl
  | cons p rest ih => intro st; rw [logMany001, ih]; rfl

/-- Entries present before the manual bypass survive it: the bypass only
appends to the log. -/
theorem hasLog_bypass001 (e : Env001) (w : Wallet001) (address : String) (st : State001)
    (lvl : Level) (msg : String) (h : hasLog st.logs lvl msg = true) :
    hasLog (bypass001 e w address st).1.logs lvl msg = true := by
  unfold bypass001
  repeat' split
  all_goals try simp_all [step12_001, log001, call001]
  all_goals (repeat' split)
  all_goals simp_all [step12_001, log001, call001]

/-- Calls recorded before the manual bypass survive it: the bypass only
appends to the trace. -/
theorem mem_calls_bypass001 (e : Env001) (w : Wallet001) (address : String) (st : State001)
    (ev : CallEv) (h : ev ∈ st.calls) :
    ev ∈ (bypass001 e w address st).1.calls := by
  unfold bypass001
  repeat' split
  all_goals try simp_all [step12_001, log001, call001]
  all_goals (repeat' split)
  all_goals simp_all [step12_001, log001, call001]

/-- Entries present before step 10 survive steps 10 to 12. -/
theorem hasLog_step10_001 (e : Env001) (w : Wallet001) (address : String) (st : State001)
    (lvl : Level) (msg : String) (h : hasLog st.logs lvl msg = true) :
    hasLog (step10_001 e w address st).1.logs lvl msg = true := by
  unfold step10_001
  repeat' split
  all_goals try (apply hasLog_bypass001 <;> simp_all [log001, call001])
  all_goals simp_all [step12_001, log001, call001]

/-- Calls recorded before step 10 survive steps 10 to 12. -/
theorem mem_calls_step10_001 (e : Env001) (w : Wallet001) (address : String) (st : State001)
    (ev : CallEv) (h : ev ∈ st.calls) :
    ev ∈ (step10_001 e w address st).1.calls := by
  unfold step10_001
  repeat' split
  all_goals try (apply mem_calls_bypass001 <;> simp_all [log001, call001])
  all_goals simp_all [step12_001, log001, call001]

/-- Entries logged by the body survive the outer catch and the finally. -/
theorem hasLog_runTest001 (e : Env001) (s : State001) (lvl : Level) (msg : String)
    (h : hasLog (body001 e start001).1.logs lvl msg = true) :
    hasLog (runTest001 e s).logs lvl msg = true := by
  unfold runTest001
  rcases hres : (body001 e start001).2 with _ | m <;> simp_all [log001]

/-- The outer catch and the finally do not touch the call trace. -/
theorem runTest001_calls (e : Env001) (s : State001) :
    (runTest001 e s).calls = (body001 e start001).1.calls := by
  unfold runTest001
  rcases hres : (body001 e start001).2 with _ | m <;> simp_all [log001]

/-- What step 10 logs when `signAuthorizations` throws with a message matching
the known bug signature, and that the run then proceeds into step 11. -/
theorem step10_001_bug (e : Env001) (w : Wallet001) (address : String) (st : State001)
    (m : String) (hsa : e.signAuthorizations = Except.error m)
    (hm : (strContains m "Account type" || strContains m "json-rpc" ||
      strContains m "not supported") = true) :
    hasLog (step10_001 e w address st).1.logs .error ("signAuthorizations FAILED: " ++ m) = true ∧
    hasLog (step10_001 e w address st).1.logs .error
      ">>> BUG CONFIRMED: JSON-RPC account cannot sign EIP-7702 authorizations" = true ∧
    hasLog (step10_001 e w address st).1.logs .info
      "Step 11: Testing walletClient.signAuthorization workaround..." = true := by
  unfold step10_001
  simp only [hsa]
  refine ⟨?_, ?_, ?_⟩ <;> (apply hasLog_bypass001 _ _ _ _ _ _ ?_) <;>
    simp_all [log001, call001, hm]

/-! ## Claims -/

/-- C1: in the bug-repro variant, whenever the run reaches step 10 and
`signAuthorizations` throws an error whose message contains "Account type",
"json-rpc" or "not supported", the log afterwards contains the generic
failure entry carrying the error message and the distinct
">>> BUG CONFIRMED" marker entry, and the run continues into the bypass step
(step 11) instead of propagating the error out of `runTest`. -/
theorem claim1_bug_confirmed_marker (e : Env001) (s : State001) (w : Wallet001) (key : String)
    (acct : RhAccount) (dep : Bool) (m : String)
    (hw : e.wallet = some w)
    (hp : e.getWalletClient = Except.ok (some ()))
    (hk : e.apiKey = some key) (hk' : ¬ key = "")
    (hc : e.createAccount = Except.ok acct)
    (hd : e.isDeployed = Except.ok dep)
    (hpr : e.prepareTransaction = Except.ok ())
    (hsa : e.signAuthorizations = Except.error m)
    (hm : (strContains m "Account type" || strContains m "json-rpc" ||
      strContains m "not supported") = true) :
    hasLog (runTest001 e s).logs .error ("signAuthorizations FAILED: " ++ m) = true ∧
    hasLog (runTest001 e s).logs .error
      ">>> BUG CONFIRMED: JSON-RPC account cannot sign EIP-7702 authorizations" = true ∧
    hasLog (runTest001 e s).logs .info
      "Step 11: Testing walletClient.signAuthorization workaround..." = true := by
  have key10 := step10_001_bug e w w.address
  refine ⟨?_, ?_, ?_⟩ <;>
  · apply hasLog_runTest001
    rcases hinit : e.signEip7702InitData with m2 | v
    · simp only [body001, start001, log001, call001, hw, hp, hk, hc, hd, hpr, hinit,
        if_neg hk']
      first
      | exact (key10 _ _ hsa hm).1
      | exact (key10 _ _ hsa hm).2.1
      | exact (key10 _ _ hsa hm).2.2
    · by_cases hv : v ≠ "" ∧ v ≠ "0x" <;>
      · simp only [body001, start001, log001, call001, hw, hp, hk, hc, hd, hpr, hinit,
          if_neg hk', hv, if_true, if_false]
        first
        | exact (key10 _ _ hsa hm).1
        | exact (key10 _ _ hsa hm).2.1
        | exact (key10 _ _ hsa hm).2.2

def claim1Connector : Connector001 :=
  { name := some "Dynamic Embedded", evmNetworks := some [8453],
    hasGetWalletClient := true, hasGetSigner := false, hasExportPrivateKey := false }

def claim1Wallet : Wallet001 :=
  { address := "0xAbCdEF0000000000000000000000000000000001", connector := some claim1Connector }

def claim1Env : Env001 :=
  { wallet := some claim1Wallet,
    getWalletClient := Except.ok (some ()),
    walletClientAccountType := none,
    apiKey := some "test-key",
    createAccount := Except.ok { address := "0xAbCdEF0000000000000000000000000000000001" },
    isDeployed := Except.ok false,
    signEip7702InitData := Except.ok "0xdeadbeef",
    prepareTransaction := Except.ok (),
    signAuthorizations := Except.error "Account type \"json-rpc\" is not supported",
    walletClientHasSignAuthorization := true,
    getTransactionMessages := Except.ok "to 0x1234567890abcdef1234567890abcdef12345678",
    walletSignAuthorization := Except.error "Method not found" }

/-- C1 witness: the theorem applied to a concrete environment reproducing the
reported failure message. -/
theorem claim1_witness :
    hasLog (runTest001 claim1Env start001).logs .error
      ("signAuthorizations FAILED: " ++ "Account type \"json-rpc\" is not supported") = true ∧
    hasLog (runTest001 claim1Env start001).logs .error
      ">>> BUG CONFIRMED: JSON-RPC account cannot sign EIP-7702 authorizations" = true ∧
    hasLog (runTest001 claim1Env start001).logs .info
      "Step 11: Testing walletClient.signAuthorization workaround..." = true :=
  claim1_bug_confirmed_marker claim1Env start001 claim1Wallet "test-key"
    { address := "0xAbCdEF0000000000000000000000000000000001" } false
    "Account type \"json-rpc\" is not supported"
    rfl rfl rfl (by decide) rfl rfl rfl rfl (by decide)

/-- C5: in every variant and for every collaborator behaviour and prior
component state, the run-state flag is raised by the start state of the run
and is false again when `runTest` returns; since each `runTest` is a total
function of the environment, no error escapes to the caller on any path. -/
theorem claim5_running_flag_cleanup :
    ∀ (e1 : Env001) (s1 : State001) (e3 : Env003) (s3 : State003) (eE : EnvE) (sE : StateE),
      start001.running = true ∧ (runTest001 e1 s1).running = false ∧
      start003.running = true ∧ (runTest003 e3 s3).running = false ∧
      startE.running = true ∧ (runTestE eE sE).running = false :=
  fun _ _ _ _ _ _ => ⟨rfl, rfl, rfl, rfl, rfl, rfl⟩

/-- C8: in every variant, one run is a pure function of the collaborator
behaviour alone — the component state left by any previous run does not
influence it (the run starts by clearing the log, and in the direct-signing
variant the stored authorization tuple) — so two consecutive runs with
identical collaborators produce identical states, and in particular
identical log sequences. -/
theorem claim8_idempotent_runs :
    ∀ (e1 : Env001) (s1 s1' : State001) (e3 : Env003) (s3 s3' : State003)
      (eE : EnvE) (sE sE' : StateE),
      runTest001 e1 s1 = runTest001 e1 s1' ∧
      runTest001 e1 (runTest001 e1 s1) = runTest001 e1 s1 ∧
      runTest003 e3 s3 = runTest003 e3 s3' ∧
      runTest003 e3 (runTest003 e3 s3) = runTest003 e3 s3 ∧
      runTestE eE sE = runTestE eE sE' ∧
      runTestE eE (runTestE eE sE) = runTestE eE sE :=
  fun _ _ _ _ _ _ _ _ _ => ⟨rfl, rfl, rfl, rfl, rfl, rfl⟩

def claim2Env : Env001 :=
  { wallet := none,
    getWalletClient := Except.ok none,
    walletClientAccountType := none,
    apiKey := none,
    createAccount := Except.error "unused",
    isDeployed := Except.ok false,
    signEip7702InitData := Except.error "unused",
    prepareTransaction := Except.error "unused",
    signAuthorizations := Except.error "unused",
    walletClientHasSignAuthorization := false,
    getTransactionMessages := Except.error "unused",
    walletSignAuthorization := Except.error "unused" }

/-- C2 counterexample: in the bug-repro variant a run with no wallet handle
produces TWO log entries — an informational "Step 1" header followed by the
error — not exactly one entry of level error as claimed. -/
theorem claim2_counterexample :
    (runTest001 claim2Env start001).logs.length = 2 ∧
    (runTest001 claim2Env start001).logs.map LogEntry.level = [Level.info, Level.error] := by
  constructor <;> rfl

/-- C2 (amended): with no wallet handle present, every variant ends with the
run-state flag false and exactly one error-level entry which is the last log
entry; the `RhinestoneTest` variant logs exactly that one entry, while the
bug-repro and direct-signing variants precede it with a single info-level
"Step 1" header. -/
theorem claim2_no_wallet_logs :
    ∀ (e1 : Env001) (s1 : State001) (e3 : Env003) (s3 : State003) (eE : EnvE) (sE : StateE),
      (runTest001 { e1 with wallet := none } s1).logs =
        [⟨Level.info, "Step 1: Checking Dynamic wallet connection..."⟩,
         ⟨Level.error, "No wallet connected. Please connect first."⟩] ∧
      (runTest001 { e1 with wallet := none } s1).running = false ∧
      (runTest003 { e3 with wallet := none } s3).logs =
        [⟨Level.error, "No wallet connected"⟩] ∧
      (runTest003 { e3 with wallet := none } s3).running = false ∧
      (runTestE { eE with wallet := none } sE).logs =
        [⟨Level.info, "Step 1: Checking Dynamic wallet connection..."⟩,
         ⟨Level.error, "No wallet connected. Please connect first."⟩] ∧
      (runTestE { eE with wallet := none } sE).running = false :=
  fun _ _ _ _ _ _ => ⟨rfl, rfl, rfl, rfl, rfl, rfl⟩

def claim9Wallet : Wallet001 :=
  { address := "0xAbCdEF0000000000000000000000000000000001", connector := none }

def claim9Env : Env001 :=
  { wallet := some claim9Wallet,
    getWalletClient := Except.ok (some ()),
    walletClientAccountType := none,
    apiKey := none,
    createAccount := Except.error "unused",
    isDeployed := Except.ok false,
    signEip7702InitData := Except.error "unused",
    prepareTransaction := Except.error "unused",
    signAuthorizations := Except.error "unused",
    walletClientHasSignAuthorization := false,
    getTransactionMessages := Except.error "unused",
    walletSignAuthorization := Except.error "unused" }

/-- C9 counterexample: with the account-abstraction API key absent the process
still starts — startup validation consults only the wallet-provider
environment identifier — and the runner is reached with partial
configuration: the bug-repro run proceeds to step 5 where the missing key
yields a mere error log entry, not a startup failure. -/
theorem claim9_counterexample :
    mainStartup (some "env-id") = Except.ok () ∧
    claim9Env.apiKey = none ∧
    hasLog (runTest001 claim9Env start001).logs .error "VITE_RHINESTONE_API_KEY not set" = true ∧
    (runTest001 claim9Env start001).running = false := by
  refine ⟨rfl, rfl, ?_, rfl⟩
  decide

/-- C9 (amended): only the wallet-provider environment identifier is
validated at process start, and its absence (or emptiness) is a fatal startup
error; the account-abstraction API key is not consulted at startup — each
account-abstraction variant checks it mid-run, logs an error entry as the
final log line and stops that run before any account-abstraction client call
(in particular `createAccount` is never invoked). -/
theorem claim9_startup_validation :
    mainStartup none = Except.error "VITE_DYNAMIC_ENVIRONMENT_ID is required" ∧
    mainStartup (some "") = Except.error "VITE_DYNAMIC_ENVIRONMENT_ID is required" ∧
    (∀ (e : Env001) (w : Wallet001) (s : State001),
      (runTest001 { e with wallet := some w, getWalletClient := Except.ok (some ()), apiKey := none } s).logs.getLast? =
          some ⟨Level.error, "VITE_RHINESTONE_API_KEY not set"⟩ ∧
      (runTest001 { e with wallet := some w, getWalletClient := Except.ok (some ()), apiKey := none } s).calls =
          [CallEv.getWalletClient]) ∧
    (∀ (a : String) (e3 : Env003) (s3 : State003),
      (runTest003 { e3 with wallet := some { address := a, connector := some { hasSetActiveAccount := true, hasGetSigner := true } }, getSigner := Except.ok (some { hasSignAuthorization := true }), apiKey := none } s3).logs.getLast? =
          some ⟨Level.error, "RHINESTONE_API_KEY not set"⟩ ∧
      (runTest003 { e3 with wallet := some { address := a, connector := some { hasSetActiveAccount := true, hasGetSigner := true } }, getSigner := Except.ok (some { hasSignAuthorization := true }), apiKey := none } s3).calls =
          [CallEv.setActiveAccount a, CallEv.getSigner]) :=
  ⟨rfl, rfl, fun _ _ _ => ⟨rfl, rfl⟩, fun _ _ _ => ⟨rfl, rfl⟩⟩

def claim6Connector : Connector001 :=
  { name := some "MetaMask", evmNetworks := some [1],
    hasGetWalletClient := false, hasGetSigner := false, hasExportPrivateKey := false }

def claim6Wallet : Wallet001 :=
  { address := "0xAbCdEF0000000000000000000000000000000001", connector := some claim6Connector }

def claim6Env : Env001 :=
  { wallet := some claim6Wallet,
    getWalletClient := Except.ok (some ()),
    walletClientAccountType := none,
    apiKey := some "test-key",
    createAccount := Except.ok { address := "0xAbCdEF0000000000000000000000000000000001" },
    isDeployed := Except.ok true,
    signEip7702InitData := Except.ok "0xdeadbeef",
    prepareTransaction := Except.ok (),
    signAuthorizations := Except.ok 1,
    walletClientHasSignAuthorization := false,
    getTransactionMessages := Except.error "unused",
    walletSignAuthorization := Except.error "unused" }

/-- C6 counterexample: the bug-repro variant performs no chain-set check at
all — with the required target chain (Base, 8453) absent from the wallet
handle's declared chain set, the run still reaches and performs the
`signAuthorizations` signing call. -/
theorem claim6_counterexample :
    (((claim6Env.wallet.bind Wallet001.connector).bind
        Connector001.evmNetworks).getD []).contains baseChainId = false ∧
    CallEv.rhSignAuthorizations ∈ (runTest001 claim6Env start001).calls := by
  constructor
  · decide
  · decide

/-- C6 (amended): the chain-set gate exists only in the direct-signing
variant: there, when the required target chain (Base) is not in the wallet
handle's declared chain set, the run stops with an error before ANY external
call — the signer is never acquired and no authorization-signing call is ever
made.  (The account-abstraction variants perform no such check, see the
counterexample.) -/
theorem claim6_chain_gate_direct (eE : EnvE) (sE : StateE) (w : WalletE) (c : ConnectorE)
    (hw : eE.wallet = some w) (hc : w.connector = some c)
    (hchain : baseChainId ∉ c.evmNetworks.getD []) :
    (runTestE eE sE).calls = [] ∧
    hasLog (runTestE eE sE).logs .error "Base not available. Add it in Dynamic dashboard." = true := by
  unfold runTestE bodyE
  rcases hs : c.isSignAuthorizationSupported with _ | b
  · simp [hw, hc, hs, hchain, probeLogE, logE, callE, startE]
  · rcases b <;> simp [hw, hc, hs, hchain, probeLogE, logE, callE, startE]

def claim6SignerE : SignerE :=
  { accountAddress := some "0xAbC0000000000000000000000000000000000001",
    hasSignAuthorization := true, signAuthorization := Except.error "unused" }

def claim6ConnectorE : ConnectorE :=
  { name := some "Dynamic WaaS", isSignAuthorizationSupported := some false,
    evmNetworks := some [1], getNetwork := none, switchNetwork := none,
    hasSetActiveAccount := true,
    getActiveAccount := some (some "0xAbC0000000000000000000000000000000000001"),
    getSigner := some (Except.ok (some claim6SignerE)) }

def claim6WalletE : WalletE :=
  { address := "0xAbC0000000000000000000000000000000000001",
    connector := some claim6ConnectorE }

def claim6EnvE : EnvE :=
  { wallet := some claim6WalletE,
    contractAddress := "0x0000000000000000000000000000000000000001" }

/-- C6 witness: the amended theorem applied to a concrete direct-signing
environment whose declared chain set lacks Base. -/
theorem claim6_witness :
    (runTestE claim6EnvE startE).calls = [] ∧
    hasLog (runTestE claim6EnvE startE).logs .error
      "Base not available. Add it in Dynamic dashboard." = true :=
  claim6_chain_gate_direct claim6EnvE startE claim6WalletE claim6ConnectorE rfl rfl (by decide)

/-- Entries logged by the body survive the outer catch and the finally. -/
theorem hasLog_runTest003 (e : Env003) (s : State003) (lvl : Level) (msg : String)
    (h : hasLog (body003 e start003).1.logs lvl msg = true) :
    hasLog (runTest003 e s).logs lvl msg = true := by
  unfold runTest003
  rcases hres : (body003 e start003).2 with _ | m <;> simp_all [log003]

/-- The outer catch and the finally do not touch the call trace. -/
theorem runTest003_calls (e : Env003) (s : State003) :
    (runTest003 e s).calls = (body003 e start003).1.calls := by
  unfold runTest003
  rcases hres : (body003 e start003).2 with _ | m <;> simp_all [log003]

/-- C3: in both account-abstraction variants, a run that reaches the
init-signature step and sees `signEip7702InitData` throw still invokes
`prepareTransaction`, with its `eip7702InitSignature` argument absent; the
failure only produces an error log entry and does not stop the run. -/
theorem claim3_init_failure_is_soft (e : Env001) (s : State001) (w : Wallet001) (key : String)
    (acct : RhAccount) (dep : Bool) (m : String)
    (e3 : Env003) (s3 : State003) (w3 : Wallet003) (c3 : Conn003) (sg : Signer003)
    (key3 : String) (acct3 : RhAccount) (m3 : String)
    (hw : e.wallet = some w)
    (hp : e.getWalletClient = Except.ok (some ()))
    (hk : e.apiKey = some key) (hk' : ¬ key = "")
    (hc : e.createAccount = Except.ok acct)
    (hd : e.isDeployed = Except.ok dep)
    (hinit : e.signEip7702InitData = Except.error m)
    (hw3 : e3.wallet = some w3) (hc3 : w3.connector = some c3)
    (hset : c3.hasSetActiveAccount = true) (hget : c3.hasGetSigner = true)
    (hsg : e3.getSigner = Except.ok (some sg)) (hsa : sg.hasSignAuthorization = true)
    (hk3 : e3.apiKey = some key3) (hk3' : ¬ key3 = "")
    (hca : e3.createAccount = Except.ok acct3)
    (hinit3 : e3.signEip7702InitData = Except.error m3) :
    (CallEv.prepareTransaction none ∈ (runTest001 e s).calls ∧
      hasLog (runTest001 e s).logs .error ("signEip7702InitData failed: " ++ m) = true) ∧
    (CallEv.prepareTransaction none ∈ (runTest003 e3 s3).calls ∧
      hasLog (runTest003 e3 s3).logs .error ("signEip7702InitData failed: " ++ m3) = true) := by
  refine ⟨⟨?_, ?_⟩, ⟨?_, ?_⟩⟩
  · rw [runTest001_calls]
    simp only [body001, start001, log001, call001, hw, hp, hk, hc, hd, hinit, if_neg hk']
    rcases hpre : e.prepareTransaction with mp | u
    · simp [hpre, log001, call001]
    · simp only [hpre]
      apply mem_calls_step10_001
      simp [call001]
  · apply hasLog_runTest001
    simp only [body001, start001, log001, call001, hw, hp, hk, hc, hd, hinit, if_neg hk']
    rcases hpre : e.prepareTransaction with mp | u
    · simp [hpre, log001, call001]
    · simp only [hpre]
      apply hasLog_step10_001
      simp [log001, call001]
  · rw [runTest003_calls]
    simp only [body003, start003, log003, call003, hw3, hc3, hset, hget, hsg, hsa, hk3, hca,
      hinit3, if_neg hk3']
    repeat' split
    all_goals simp_all [log003, call003]
  · apply hasLog_runTest003
    simp only [body003, start003, log003, call003, hw3, hc3, hset, hget, hsg, hsa, hk3, hca,
      hinit3, if_neg hk3']
    repeat' split
    all_goals simp_all [log003, call003]

def claim3Env : Env001 :=
  { wallet := some claim1Wallet,
    getWalletClient := Except.ok (some ()),
    walletClientAccountType := none,
    apiKey := some "test-key",
    createAccount := Except.ok { address := "0xAbCdEF0000000000000000000000000000000001" },
    isDeployed := Except.ok false,
    signEip7702InitData := Except.error "User rejected",
    prepareTransaction := Except.ok (),
    signAuthorizations := Except.ok 1,
    walletClientHasSignAuthorization := false,
    getTransactionMessages := Except.error "unused",
    walletSignAuthorization := Except.error "unused" }

def claim3Wallet3 : Wallet003 :=
  { address := "0xAbCdEF0000000000000000000000000000000001",
    connector := some { hasSetActiveAccount := true, hasGetSigner := true } }

def claim3Env3 : Env003 :=
  { wallet := some claim3Wallet3,
    getSigner := Except.ok (some { hasSignAuthorization := true }),
    apiKey := some "test-key",
    createAccount := Except.ok { address := "0xAbCdEF0000000000000000000000000000000001" },
    signEip7702InitData := Except.error "User rejected",
    prepareTransaction := Except.error "no init data",
    signTransaction := Except.ok (),
    signAuthorizations := Except.ok 1,
    submitTransaction := Except.ok "ok" }

/-- C3 witness: the theorem applied to concrete environments whose
init-signature call throws. -/
theorem claim3_witness :
    (CallEv.prepareTransaction none ∈ (runTest001 claim3Env start001).calls ∧
      hasLog (runTest001 claim3Env start001).logs .error
        ("signEip7702InitData failed: " ++ "User rejected") = true) ∧
    (CallEv.prepareTransaction none ∈ (runTest003 claim3Env3 start003).calls ∧
      hasLog (runTest003 claim3Env3 start003).logs .error
        ("signEip7702InitData failed: " ++ "User rejected") = true) :=
  claim3_init_failure_is_soft claim3Env start001 claim1Wallet "test-key"
    { address := "0xAbCdEF0000000000000000000000000000000001" } false "User rejected"
    claim3Env3 start003 claim3Wallet3 { hasSetActiveAccount := true, hasGetSigner := true }
    { hasSignAuthorization := true } "test-key"
    { address := "0xAbCdEF0000000000000000000000000000000001" } "User rejected"
    rfl rfl rfl (by decide) rfl rfl rfl rfl rfl rfl rfl rfl rfl rfl (by decide) rfl rfl

/-- The calls that claim C4 forbids after a `prepareTransaction` failure:
transaction signing, authorization-list signing, low-level/bypass
authorization signing, and submission. -/
def isPostPrepareCall : CallEv → Bool
  | CallEv.rhSignTransaction => true
  | CallEv.rhSignAuthorizations => true
  | CallEv.walletSignAuthorization _ => true
  | CallEv.signerSignAuthorization _ _ => true
  | CallEv.submitTransaction => true
  | _ => false

set_option maxHeartbeats 2000000 in
/-- C4: in both account-abstraction variants, when `prepareTransaction`
throws, no subsequent external step executes — the trace contains no
transaction-signing, authorization-signing, bypass-signing or submission
call — and the run ends with the corresponding error as its final log
entry. -/
theorem claim4_prepare_failure_stops (e : Env001) (s : State001) (w : Wallet001) (key : String)
    (acct : RhAccount) (dep : Bool) (m : String)
    (e3 : Env003) (s3 : State003) (w3 : Wallet003) (c3 : Conn003) (sg : Signer003)
    (key3 : String) (acct3 : RhAccount) (m3 : String)
    (hw : e.wallet = some w)
    (hp : e.getWalletClient = Except.ok (some ()))
    (hk : e.apiKey = some key) (hk' : ¬ key = "")
    (hc : e.createAccount = Except.ok acct)
    (hd : e.isDeployed = Except.ok dep)
    (hpr : e.prepareTransaction = Except.error m)
    (hw3 : e3.wallet = some w3) (hc3 : w3.connector = some c3)
    (hset : c3.hasSetActiveAccount = true) (hget : c3.hasGetSigner = true)
    (hsg : e3.getSigner = Except.ok (some sg)) (hsa : sg.hasSignAuthorization = true)
    (hk3 : e3.apiKey = some key3) (hk3' : ¬ key3 = "")
    (hca : e3.createAccount = Except.ok acct3)
    (hpr3 : e3.prepareTransaction = Except.error m3) :
    ((runTest001 e s).calls.any isPostPrepareCall = false ∧
      (runTest001 e s).logs.getLast? = some ⟨Level.error, "prepareTransaction failed: " ++ m⟩) ∧
    ((runTest003 e3 s3).calls.any isPostPrepareCall = false ∧
      (runTest003 e3 s3).logs.getLast? = some ⟨Level.error, "Error: " ++ m3⟩) := by
  refine ⟨⟨?_, ?_⟩, ⟨?_, ?_⟩⟩
  · rw [runTest001_calls]
    rcases hinit : e.signEip7702InitData with m2 | v
    · simp only [body001, start001, log001, call001, hw, hp, hk, hc, hd, hpr, hinit,
        if_neg hk']
      simp [isPostPrepareCall]
    · by_cases hv : v ≠ "" ∧ v ≠ "0x" <;>
      · simp only [body001, start001, log001, call001, hw, hp, hk, hc, hd, hpr, hinit,
          if_neg hk', hv, if_true, if_false]
        simp [isPostPrepareCall, hv]
  · unfold runTest001
    rcases hinit : e.signEip7702InitData with m2 | v
    · simp only [body001, start001, log001, call001, hw, hp, hk, hc, hd, hpr, hinit,
        if_neg hk']
      simp
    · by_cases hv : v ≠ "" ∧ v ≠ "0x" <;>
      · simp only [body001, start001, log001, call001, hw, hp, hk, hc, hd, hpr, hinit,
          if_neg hk', hv, if_true, if_false]
        simp [hv]
  · rw [runTest003_calls]
    rcases hinit3 : e3.signEip7702InitData with m2 | v <;>
    · simp only [body003, start003, log003, call003, hw3, hc3, hset, hget, hsg, hsa, hk3, hca,
        hpr3, hinit3, if_neg hk3']
      simp [isPostPrepareCall]
  · unfold runTest003
    rcases hinit3 : e3.signEip7702InitData with m2 | v <;>
    · simp only [body003, start003, log003, call003, hw3, hc3, hset, hget, hsg, hsa, hk3, hca,
        hpr3, hinit3, if_neg hk3']
      simp

def claim4Env : Env001 :=
  { wallet := some claim1Wallet,
    getWalletClient := Except.ok (some ()),
    walletClientAccountType := none,
    apiKey := some "test-key",
    createAccount := Except.ok { address := "0xAbCdEF0000000000000000000000000000000001" },
    isDeployed := Except.ok false,
    signEip7702InitData := Except.ok "0xdeadbeef",
    prepareTransaction := Except.error "insufficient USDC balance",
    signAuthorizations := Except.ok 1,
    walletClientHasSignAuthorization := true,
    getTransactionMessages := Except.ok "unused",
    walletSignAuthorization := Except.ok { r := some "0x1" } }

def claim4Env3 : Env003 :=
  { wallet := some claim3Wallet3,
    getSigner := Except.ok (some { hasSignAuthorization := true }),
    apiKey := some "test-key",
    createAccount := Except.ok { address := "0xAbCdEF0000000000000000000000000000000001" },
    signEip7702InitData := Except.ok "0xdeadbeef",
    prepareTransaction := Except.error "insufficient USDC balance",
    signTransaction := Except.ok (),
    signAuthorizations := Except.ok 1,
    submitTransaction := Except.ok "ok" }

/-- C4 witness: the theorem applied to concrete environments whose
`prepareTransaction` call throws. -/
theorem claim4_witness :
    ((runTest001 claim4Env start001).calls.any isPostPrepareCall = false ∧
      (runTest001 claim4Env start001).logs.getLast? =
        some ⟨Level.error, "prepareTransaction failed: " ++ "insufficient USDC balance"⟩) ∧
    ((runTest003 claim4Env3 start003).calls.any isPostPrepareCall = false ∧
      (runTest003 claim4Env3 start003).logs.getLast? =
        some ⟨Level.error, "Error: " ++ "insufficient USDC balance"⟩) :=
  claim4_prepare_failure_stops claim4Env start001 claim1Wallet "test-key"
    { address := "0xAbCdEF0000000000000000000000000000000001" } false "insufficient USDC balance"
    claim4Env3 start003 claim3Wallet3 { hasSetActiveAccount := true, hasGetSigner := true }
    { hasSignAuthorization := true } "test-key"
    { address := "0xAbCdEF0000000000000000000000000000000001" } "insufficient USDC balance"
    rfl rfl rfl (by decide) rfl rfl rfl rfl rfl rfl rfl rfl rfl rfl (by decide) rfl rfl

/-- Behaviour of the manual bypass when the wallet client exposes
`signAuthorization` and the transaction messages serialize successfully:
the extracted candidate is `delegateAddrOf`, a found candidate is passed to
`walletClient.signAuthorization` verbatim, no candidate means no low-level
signing call, and a "not supported"/"Method not found" failure yields the
second bug-signature marker. -/
theorem bypass001_props (e : Env001) (w : Wallet001) (address : String) (st : State001)
    (msgStr : String)
    (hwc : e.walletClientHasSignAuthorization = true)
    (hmsg : e.getTransactionMessages = Except.ok msgStr) :
    (∀ d, delegateAddrOf msgStr address = some d →
        CallEv.walletSignAuthorization d ∈ (bypass001 e w address st).1.calls) ∧
    (delegateAddrOf msgStr address = none →
        hasLog (bypass001 e w address st).1.logs .error
          "Could not extract delegate address from SDK" = true ∧
        ((∀ d, CallEv.walletSignAuthorization d ∉ st.calls) →
          ∀ d, CallEv.walletSignAuthorization d ∉ (bypass001 e w address st).1.calls)) ∧
    (∀ d mb, delegateAddrOf msgStr address = some d →
        e.walletSignAuthorization = Except.error mb →
        (strContains mb "not supported" || strContains mb "Method not found") = true →
        hasLog (bypass001 e w address st).1.logs .error
          ">>> Wallet does not support wallet_signAuthorization RPC method" = true) := by
  unfold bypass001
  refine ⟨?_, ?_, ?_⟩
  · intro d hd
    simp only [hwc, hmsg, hd, if_true]
    rcases hws : e.walletSignAuthorization with mb | auth
    · simp only [hws]
      repeat' split
      all_goals simp_all [step12_001, log001, call001]
    · simp only [hws]
      rcases hr : auth.r with _ | rv <;> simp_all [step12_001, log001, call001]
  · intro hd
    simp only [hwc, hmsg, hd, if_true]
    constructor
    · simp [step12_001, log001, call001]
    · intro hprev d
      simp_all [step12_001, log001, call001]
  · intro d mb hd hws hmb
    simp only [hwc, hmsg, hd, hws, hmb, if_true]
    simp [step12_001, log001, call001]

set_option maxHeartbeats 2000000 in
/-- C7: in the bug-repro variant, when the run reaches step 10,
`signAuthorizations` fails, the wallet client exposes `signAuthorization` and
the transaction messages serialize, then: the candidate delegate is the first
`0x`+40-hex substring of the serialized messages whose lowercase form differs
from the lowercase sender address; if it exists, `walletClient.signAuthorization`
is invoked with exactly that address; if not, an error is logged and no
low-level signing call is ever made; and a bypass-signing error containing
"not supported" or "Method not found" yields the second bug-signature
marker. -/
theorem claim7_bypass_delegate (e : Env001) (s : State001) (w : Wallet001) (key : String)
    (acct : RhAccount) (dep : Bool) (m msgStr : String)
    (hw : e.wallet = some w)
    (hp : e.getWalletClient = Except.ok (some ()))
    (hk : e.apiKey = some key) (hk' : ¬ key = "")
    (hc : e.createAccount = Except.ok acct)
    (hd : e.isDeployed = Except.ok dep)
    (hpr : e.prepareTransaction = Except.ok ())
    (hsa : e.signAuthorizations = Except.error m)
    (hwc : e.walletClientHasSignAuthorization = true)
    (hmsg : e.getTransactionMessages = Except.ok msgStr) :
    (∀ d, delegateAddrOf msgStr w.address = some d →
        CallEv.walletSignAuthorization d ∈ (runTest001 e s).calls) ∧
    (delegateAddrOf msgStr w.address = none →
        hasLog (runTest001 e s).logs .error "Could not extract delegate address from SDK" = true ∧
        ∀ d, CallEv.walletSignAuthorization d ∉ (runTest001 e s).calls) ∧
    (∀ d mb, delegateAddrOf msgStr w.address = some d →
        e.walletSignAuthorization = Except.error mb →
        (strContains mb "not supported" || strContains mb "Method not found") = true →
        hasLog (runTest001 e s).logs .error
          ">>> Wallet does not support wallet_signAuthorization RPC method" = true) := by
  refine ⟨?_, ?_, ?_⟩
  · intro d hdel
    rw [runTest001_calls]
    rcases hinit : e.signEip7702InitData with m2 | v
    · simp only [body001, start001, log001, call001, step10_001, hw, hp, hk, hc, hd, hpr,
        hsa, hinit, if_neg hk']
      exact (bypass001_props e w w.address _ msgStr hwc hmsg).1 d hdel
    · by_cases hv : v ≠ "" ∧ v ≠ "0x" <;>
      · simp only [body001, start001, log001, call001, step10_001, hw, hp, hk, hc, hd, hpr,
          hsa, hinit, if_neg hk', hv, if_true, if_false]
        exact (bypass001_props e w w.address _ msgStr hwc hmsg).1 d hdel
  · intro hdel
    constructor
    · apply hasLog_runTest001
      rcases hinit : e.signEip7702InitData with m2 | v
      · simp only [body001, start001, log001, call001, step10_001, hw, hp, hk, hc, hd, hpr,
          hsa, hinit, if_neg hk']
        exact ((bypass001_props e w w.address _ msgStr hwc hmsg).2.1 hdel).1
      · by_cases hv : v ≠ "" ∧ v ≠ "0x" <;>
        · simp only [body001, start001, log001, call001, step10_001, hw, hp, hk, hc, hd, hpr,
            hsa, hinit, if_neg hk', hv, if_true, if_false]
          exact ((bypass001_props e w w.address _ msgStr hwc hmsg).2.1 hdel).1
    · intro d
      rw [runTest001_calls]
      rcases hinit : e.signEip7702InitData with m2 | v
      · simp only [body001, start001, log001, call001, step10_001, hw, hp, hk, hc, hd, hpr,
          hsa, hinit, if_neg hk']
        refine ((bypass001_props e w w.address _ msgStr hwc hmsg).2.1 hdel).2 ?_ d
        intro d'
        split <;> simp [log001, call001]
      · by_cases hv : v ≠ "" ∧ v ≠ "0x" <;>
        · simp only [body001, start001, log001, call001, step10_001, hw, hp, hk, hc, hd, hpr,
            hsa, hinit, if_neg hk', hv, if_true, if_false]
          refine ((bypass001_props e w w.address _ msgStr hwc hmsg).2.1 hdel).2 ?_ d
          intro d'
          split <;> simp [log001, call001]
  · intro d mb hdel hws hmb
    apply hasLog_runTest001
    rcases hinit : e.signEip7702InitData with m2 | v
    · simp only [body001, start001, log001, call001, step10_001, hw, hp, hk, hc, hd, hpr,
        hsa, hinit, if_neg hk']
      exact (bypass001_props e w w.address _ msgStr hwc hmsg).2.2 d mb hdel hws hmb
    · by_cases hv : v ≠ "" ∧ v ≠ "0x" <;>
      · simp only [body001, start001, log001, call001, step10_001, hw, hp, hk, hc, hd, hpr,
          hsa, hinit, if_neg hk', hv, if_true, if_false]
        exact (bypass001_props e w w.address _ msgStr hwc hmsg).2.2 d mb hdel hws hmb

def claim7Env : Env001 :=
  { wallet := some claim1Wallet,
    getWalletClient := Except.ok (some ()),
    walletClientAccountType := none,
    apiKey := some "test-key",
    createAccount := Except.ok { address := "0xAbCdEF0000000000000000000000000000000001" },
    isDeployed := Except.ok false,
    signEip7702InitData := Except.ok "0xdeadbeef",
    prepareTransaction := Except.ok (),
    signAuthorizations := Except.error "Account type \"json-rpc\" is not supported",
    walletClientHasSignAuthorization := true,
    getTransactionMessages := Except.ok "to 0x1234567890abcdef1234567890abcdef12345678",
    walletSignAuthorization := Except.error "Method not found" }

/-- C7 witness: on a concrete run, the extracted candidate delegate is passed
verbatim to the low-level signing call, and the "Method not found" failure
produces the second bug-signature marker entry. -/
theorem claim7_witness :
    CallEv.walletSignAuthorization "0x1234567890abcdef1234567890abcdef12345678" ∈
      (runTest001 claim7Env start001).calls ∧
    hasLog (runTest001 claim7Env start001).logs .error
      ">>> Wallet does not support wallet_signAuthorization RPC method" = true :=
  have h := claim7_bypass_delegate claim7Env start001 claim1Wallet "test-key"
    { address := "0xAbCdEF0000000000000000000000000000000001" } false
    "Account type \"json-rpc\" is not supported"
    "to 0x1234567890abcdef1234567890abcdef12345678"
    rfl rfl rfl (by decide) rfl rfl rfl rfl rfl rfl
  ⟨h.1 "0x1234567890abcdef1234567890abcdef12345678" (by decide),
    h.2.2 "0x1234567890abcdef1234567890abcdef12345678" "Method not found"
      (by decide) rfl (by decide)⟩

@[simp] theorem probeLogE_lastAuth (c : ConnectorE) (st : StateE) :
    (probeLogE c st).lastAuth = st.lastAuth := by
  unfold probeLogE; split <;> rfl

@[simp] theorem probeLogE_calls (c : ConnectorE) (st : StateE) :
    (probeLogE c st).calls = st.calls := by
  unfold probeLogE; split <;> rfl

@[simp] theorem probeLogE_running (c : ConnectorE) (st : StateE) :
    (probeLogE c st).running = st.running := by
  unfold probeLogE; split <;> rfl

/-- The signer that the direct-signing variant's environment would yield:
present only when the wallet, its connector, the `getSigner` capability and
its call all succeed. -/
def signerOfE (e : EnvE) : Option SignerE :=
  match e.wallet with
  | none => none
  | some w =>
    match w.connector with
    | none => none
    | some c =>
      match c.getSigner with
      | some (Except.ok (some sg)) => some sg
      | _ => none

theorem stepsSignE_lastAuth (e : EnvE) (c : ConnectorE) (address : String) (st : StateE)
    (h : st.lastAuth = none) :
    ((stepsSignE e c address st).1.lastAuth = none) ∨
      (∃ sg, c.getSigner = some (Except.ok (some sg)) ∧
        ∃ a, sg.signAuthorization = Except.ok a ∧
          (stepsSignE e c address st).1.lastAuth = some a ∧
          hasLog (stepsSignE e c address st).1.logs .success
            "=== EIP-7702 AUTHORIZATION SIGNED SUCCESSFULLY! ===" = true) := by
  cases hset : c.hasSetActiveAccount with
  | false => left; simp [stepsSignE, hset, logE, callE, h]
  | true =>
  rcases hact : c.getActiveAccount with _ | oa
  · left; simp [stepsSignE, hset, hact, logE, callE, h]
  rcases oa with _ | a
  · left; simp [stepsSignE, hset, hact, logE, callE, h]
  by_cases ha : a = ""
  · left; simp [stepsSignE, hset, hact, ha, logE, callE, h]
  rcases hgs : c.getSigner with _ | res
  · left; simp [stepsSignE, hset, hact, ha, hgs, logE, callE, h]
  rcases res with m | osg
  · left; simp [stepsSignE, hset, hact, ha, hgs, logE, callE, h]
  rcases osg with _ | sg
  · left; simp [stepsSignE, hset, hact, ha, hgs, logE, callE, h]
  cases hauth : sg.hasSignAuthorization with
  | false => left; simp [stepsSignE, hset, hact, ha, hgs, hauth, logE, callE, h]
  | true =>
  rcases hsig : sg.signAuthorization with m | auth
  · left; simp [stepsSignE, hset, hact, ha, hgs, hauth, hsig, logE, callE, h]
  · right
    refine ⟨sg, ?_, auth, ?_, ?_, ?_⟩ <;>
      try first | exact hgs | exact hsig | rfl
    all_goals simp [stepsSignE, hset, hact, ha, hgs, hauth, hsig, logE, callE]

theorem bodyE_lastAuth (e : EnvE) :
    ((bodyE e startE).1.lastAuth = none) ∨
      (∃ sg, signerOfE e = some sg ∧
        ∃ a, sg.signAuthorization = Except.ok a ∧
          (bodyE e startE).1.lastAuth = some a ∧
          hasLog (bodyE e startE).1.logs .success
            "=== EIP-7702 AUTHORIZATION SIGNED SUCCESSFULLY! ===" = true) := by
  rcases hw : e.wallet with _ | w
  · left; simp [bodyE, hw, logE, callE, startE]
  rcases hc : w.connector with _ | c
  · left; simp [bodyE, hw, hc, logE, callE, startE]
  have lift : ∀ st : StateE, st.lastAuth = none →
      ((stepsSignE e c w.address st).1.lastAuth = none) ∨
        (∃ sg, signerOfE e = some sg ∧
          ∃ a, sg.signAuthorization = Except.ok a ∧
            (stepsSignE e c w.address st).1.lastAuth = some a ∧
            hasLog (stepsSignE e c w.address st).1.logs .success
              "=== EIP-7702 AUTHORIZATION SIGNED SUCCESSFULLY! ===" = true) := by
    intro st hst
    rcases stepsSignE_lastAuth e c w.address st hst with h1 | ⟨sg, hgs, a, hsg, h2, h3⟩
    · left; exact h1
    · right; exact ⟨sg, by simp [signerOfE, hw, hc, hgs], a, hsg, h2, h3⟩
  by_cases hin : baseChainId ∈ c.evmNetworks.getD []
  case neg => left; simp [bodyE, hw, hc, hin, logE, callE, startE]
  rcases hgn : c.getNetwork with _ | r
  · rcases hsw : c.switchNetwork with _ | rs
    · simp [bodyE, hw, hc, hin, hgn, hsw]
      exact lift _ (by first | rfl | simp [logE, callE, startE])
    · rcases rs with m | u
      · left; simp [bodyE, hw, hc, hin, hgn, hsw, logE, callE, startE]
      · simp [bodyE, hw, hc, hin, hgn, hsw]
        exact lift _ (by first | rfl | simp [logE, callE, startE])
  · rcases r with m | v
    · left; simp [bodyE, hw, hc, hin, hgn, logE, callE, startE]
    · by_cases hcur : v = some baseChainId
      · simp [bodyE, hw, hc, hin, hgn, hcur]
        exact lift _ (by first | rfl | simp [logE, callE, startE])
      · rcases hsw : c.switchNetwork with _ | rs
        · simp [bodyE, hw, hc, hin, hgn, hcur, hsw]
          exact lift _ (by first | rfl | simp [logE, callE, startE])
        · rcases rs with m | u
          · left; simp [bodyE, hw, hc, hin, hgn, hcur, hsw, logE, callE, startE]
          · simp [bodyE, hw, hc, hin, hgn, hcur, hsw]
            exact lift _ (by first | rfl | simp [logE, callE, startE])

/-- C10: in the direct-signing variant, the stored authorization tuple is
reset to null at the start of every run (the result is independent of any
prior component state), and it is non-null only when the current run's
signer-level `signAuthorization` call succeeded — in which case it holds
exactly the tuple that call returned and the success banner was logged.  In
particular a run failing before or at the signing step leaves no stale tuple
on display. -/
theorem claim10_lastAuth_no_stale :
    ∀ (e : EnvE) (s s' : StateE),
      runTestE e s = runTestE e s' ∧
      ((runTestE e s).lastAuth = none ∨
        (∃ sg a, signerOfE e = some sg ∧ sg.signAuthorization = Except.ok a ∧
          (runTestE e s).lastAuth = some a ∧
          hasLog (runTestE e s).logs .success
            "=== EIP-7702 AUTHORIZATION SIGNED SUCCESSFULLY! ===" = true)) := by
  intro e s s'
  refine ⟨rfl, ?_⟩
  have hlast : (runTestE e s).lastAuth = (bodyE e startE).1.lastAuth := by
    unfold runTestE
    rcases h2 : (bodyE e startE).2 with _ | m <;> simp [logE, h2]
  have hlog : ∀ lvl msg, hasLog (bodyE e startE).1.logs lvl msg = true →
      hasLog (runTestE e s).logs lvl msg = true := by
    intro lvl msg h
    unfold runTestE
    rcases h2 : (bodyE e startE).2 with _ | m <;> simp_all [logE]
  rcases bodyE_lastAuth e with h1 | ⟨sg, h3, a, h4, h5, h6⟩
  · left; rw [hlast]; exact h1
  · right; exact ⟨sg, a, h3, h4, by rw [hlast]; exact h5, hlog _ _ h6⟩
